import Mathlib

/-!
Shallow embedding of the OnionScan scanner (`main.py` plus the vendored
`bs4` stub) and proofs about its claims.

Python strings become Lean `String`, byte strings become `List Nat`
(each entry < 256), dictionaries with a fixed key set become structures,
heterogeneous dictionaries become tailored inductive types, and the
network is an explicit environment of probe outcomes.  Python's module
level mutable state (the transport singleton, the `lru_cache` slot) is
threaded as explicit state values.
-/

set_option autoImplicit false

namespace OnionScan

/-- Truthiness of an optional Python string: `None` and the empty string
are falsy, every other string is truthy. -/
def falsy : Option String → Bool
  | none => true
  | some s => s == ""

/-- Python `a or b` on optional strings: yields `b` when `a` is falsy. -/
def pyOr (a b : Option String) : Option String :=
  if falsy a then b else a

/-- Python `str.isdigit` restricted to ASCII strings: nonempty and all
characters are decimal digits. -/
def strIsDigit (s : String) : Bool :=
  !s.isEmpty && s.toList.all Char.isDigit

/-- Embedding of `_get_proxy_config` (`main.py` lines 26-38).  The module
globals `PROXY_HOST` / `PROXY_PORT` and the environment variables
`TOR_PROXY_HOST` / `TOR_PROXY_PORT` are explicit arguments (`none` when
unset). -/
def _get_proxy_config (cliHost cliPort envHost envPort : Option String) :
    String × String :=
  let host0 := pyOr cliHost envHost
  let port0 := pyOr cliPort envPort
  let host := if falsy host0 then "127.0.0.1" else host0.getD ""
  let port :=
    if falsy port0 || !strIsDigit (port0.getD "") then "9050" else port0.getD ""
  (host, port)

/-- Embedding of a `requests.Session` as far as the code configures it:
its proxy map and its headers. -/
structure Session where
  proxies : List (String × String)
  headers : List (String × String)
deriving DecidableEq

/-- The session `get_tor_session` builds on a cache miss (`main.py`
lines 46-53): proxy URLs from the resolved config, fixed user agent. -/
def mkSession (cliHost cliPort envHost envPort : Option String) : Session :=
  let cfg := _get_proxy_config cliHost cliPort envHost envPort
  { proxies := [("http", "socks5h://" ++ cfg.1 ++ ":" ++ cfg.2),
                ("https", "socks5h://" ++ cfg.1 ++ ":" ++ cfg.2)],
    headers := [("User-Agent", "Mozilla/5.0")] }

/-- Module state around the `_TOR_SESSION` global, instrumented with a
count of `requests.Session()` constructor invocations so that "constructed
exactly once" is expressible. -/
structure TransportState where
  torSession : Option Session
  ctorCalls : Nat
deriving DecidableEq

/-- Embedding of `get_tor_session` (`main.py` lines 41-55): returns the
cached session if present, otherwise constructs one, stores it and bumps
the construction counter. -/
def get_tor_session (cliHost cliPort envHost envPort : Option String)
    (st : TransportState) : Session × TransportState :=
  match st.torSession with
  | some s => (s, st)
  | none =>
      let s := mkSession cliHost cliPort envHost envPort
      (s, { torSession := some s, ctorCalls := st.ctorCalls + 1 })

/-- Does the character list contain `pat` as a contiguous run? -/
def listContains (pat : List Char) : List Char → Bool
  | [] => pat.isEmpty
  | c :: rest => pat.isPrefixOf (c :: rest) || listContains pat rest

/-- The characters Python `str.strip()` removes: space, tab, newline,
carriage return, vertical tab, form feed. -/
def isPySpace (c : Char) : Bool :=
  c == Char.ofNat 32 || c == Char.ofNat 9 || c == Char.ofNat 10 ||
  c == Char.ofNat 13 || c == Char.ofNat 11 || c == Char.ofNat 12

/-- Python `str.strip()`: remove leading and trailing whitespace. -/
def pyStrip (s : String) : String :=
  String.mk (((s.toList.dropWhile isPySpace).reverse.dropWhile isPySpace).reverse)

/-- Lowercase a string character by character (ASCII, which is all the
code compares). -/
def lowerStr (s : String) : String :=
  String.mk (s.toList.map Char.toLower)

/-- Index of the first position where `pat` occurs in the list. -/
def findIdx? (pat : List Char) : List Char → Option Nat
  | [] => if pat.isEmpty then some 0 else none
  | c :: rest =>
    if pat.isPrefixOf (c :: rest) then some 0
    else (findIdx? pat rest).map (· + 1)

/-- Python `pat in s` on strings: substring containment. -/
def containsSubstr (s pat : String) : Bool :=
  listContains pat.toList s.toList

/-- Is the byte a UTF-8 continuation byte (`0x80-0xBF`)? -/
def isCont (b : Nat) : Bool := 0x80 ≤ b && b ≤ 0xBF

/-- Allowed range of the first continuation byte of a three byte
sequence, excluding overlong encodings and surrogates. -/
def cont3ok (b b2 : Nat) : Bool :=
  if b == 0xE0 then 0xA0 ≤ b2 && b2 ≤ 0xBF
  else if b == 0xED then 0x80 ≤ b2 && b2 ≤ 0x9F
  else isCont b2

/-- Allowed range of the first continuation byte of a four byte
sequence, excluding overlong encodings and code points above U+10FFFF. -/
def cont4ok (b b2 : Nat) : Bool :=
  if b == 0xF0 then 0x90 ≤ b2 && b2 ≤ 0xBF
  else if b == 0xF4 then 0x80 ≤ b2 && b2 ≤ 0x8F
  else isCont b2

/-- UTF-8 decoding with Python's `errors="ignore"` handler: valid
sequences are decoded, invalid bytes are dropped (the offending lead
byte together with the continuation bytes already consumed).  The fuel
equals the byte count; every step consumes at least one byte, so the
fuel never runs out before the input does. -/
def utf8DecodeIgnoreAux : Nat → List Nat → List Char
  | 0, _ => []
  | _ + 1, [] => []
  | n + 1, b :: rest =>
    if b < 0x80 then Char.ofNat b :: utf8DecodeIgnoreAux n rest
    else if 0xC2 ≤ b && b ≤ 0xDF then
      match rest with
      | b2 :: r2 =>
        if isCont b2 then
          Char.ofNat ((b - 0xC0) * 0x40 + (b2 - 0x80)) :: utf8DecodeIgnoreAux n r2
        else utf8DecodeIgnoreAux n rest
      | [] => []
    else if 0xE0 ≤ b && b ≤ 0xEF then
      match rest with
      | b2 :: b3 :: r3 =>
        if cont3ok b b2 && isCont b3 then
          Char.ofNat ((b - 0xE0) * 0x1000 + (b2 - 0x80) * 0x40 + (b3 - 0x80)) ::
            utf8DecodeIgnoreAux n r3
        else if cont3ok b b2 then utf8DecodeIgnoreAux n (b3 :: r3)
        else utf8DecodeIgnoreAux n rest
      | [b2] => if cont3ok b b2 then [] else utf8DecodeIgnoreAux n [b2]
      | [] => []
    else if 0xF0 ≤ b && b ≤ 0xF4 then
      match rest with
      | b2 :: b3 :: b4 :: r4 =>
        if cont4ok b b2 && isCont b3 && isCont b4 then
          Char.ofNat ((b - 0xF0) * 0x40000 + (b2 - 0x80) * 0x1000 +
              (b3 - 0x80) * 0x40 + (b4 - 0x80)) :: utf8DecodeIgnoreAux n r4
        else if cont4ok b b2 && isCont b3 then utf8DecodeIgnoreAux n (b4 :: r4)
        else if cont4ok b b2 then utf8DecodeIgnoreAux n (b3 :: b4 :: r4)
        else utf8DecodeIgnoreAux n rest
      | [b2, b3] =>
        if cont4ok b b2 && isCont b3 then []
        else if cont4ok b b2 then utf8DecodeIgnoreAux n [b3]
        else utf8DecodeIgnoreAux n [b2, b3]
      | [b2] => if cont4ok b b2 then [] else utf8DecodeIgnoreAux n [b2]
      | [] => []
    else utf8DecodeIgnoreAux n rest

/-- Python `bytes.decode(errors="ignore")` over a byte list. -/
def utf8DecodeIgnore (bs : List Nat) : String :=
  String.mk (utf8DecodeIgnoreAux bs.length bs)

/-- Outcome of opening a proxied TCP connection and reading from it once:
either the bytes the peer sent, or the `OSError` the socket layer raised,
identified by its rendered message. -/
inductive ConnOutcome where
  | ok (data : List Nat)
  | osError (msg : String)
deriving DecidableEq

/-- The three shapes `scan_banner` can return: the banner dictionary
keyed `{label}_banner`, the distinguished closed-port marker
`{"status": "closed"}`, and the `{"error": msg}` dictionary. -/
inductive BannerResult where
  | banner (label : String) (b : String)
  | closed
  | ioError (msg : String)
deriving DecidableEq

/-- Does an `OSError` message correspond to an actively refused
connection?  The code tests this by substring: `"Connection refused" in
str(exc)` (`main.py` line 130). -/
def refusedMsg (msg : String) : Bool :=
  containsSubstr msg "Connection refused"

/-- Embedding of `scan_banner` (`main.py` lines 118-132).  The proxied
connection attempt is the environment outcome `conn`; on success the
code reads at most 1024 bytes, decodes them best effort and trims
whitespace. -/
def scan_banner (conn : ConnOutcome) (label : String) : BannerResult :=
  match conn with
  | .ok data => .banner label (pyStrip (utf8DecodeIgnore (data.take 1024)))
  | .osError msg => if refusedMsg msg then .closed else .ioError msg

/-- The eight fixed (label, port) pairs of `scan_protocols`
(`main.py` lines 138-147). -/
def protocol_ports : List (String × Nat) :=
  [("ssh", 22), ("ftp", 21), ("smtp", 25), ("xmpp", 5222),
   ("bitcoin", 8333), ("irc", 6667), ("vnc", 5900), ("mongodb", 27017)]

/-- Embedding of `scan_protocols` (`main.py` lines 135-151): one
`{label}_info` entry per fixed port, each holding that port's
`scan_banner` result.  The per-port connection outcome is the
environment function `conn`. -/
def scan_protocols (conn : Nat → ConnOutcome) : List (String × BannerResult) :=
  protocol_ports.map fun lp => (lp.1 ++ "_info", scan_banner (conn lp.2) lp.1)

/-- A relay descriptor as the code reads it: the four fields it copies
out (`published` already rendered to a string, as `str(desc.published)`
does). -/
structure Descriptor where
  nickname : String
  published : String
  platform : String
  contact : String
deriving DecidableEq

/-- Outcome of `stem.descriptor.remote.get_server_descriptors()`: a
collection of descriptors, or a `DescriptorUnavailable` failure with its
rendered message. -/
inductive DescQuery where
  | descs (l : List Descriptor)
  | unavailable (msg : String)
deriving DecidableEq

/-- The two dictionary shapes `fetch_tor_descriptor` returns. -/
inductive DescResult where
  | info (nickname published platform contact : String)
  | error (msg : String)
deriving DecidableEq

/-- The body of `fetch_tor_descriptor` (`main.py` lines 229-245) without
the `lru_cache` wrapper: empty collection raises `IndexError("no
descriptors")` which the handler renders, a failure is rendered likewise,
otherwise the first descriptor's fields are returned. -/
def fetch_tor_descriptor_body (q : DescQuery) : DescResult :=
  match q with
  | .descs [] => .error "no descriptors"
  | .descs (d :: _) => .info d.nickname d.published d.platform d.contact
  | .unavailable msg => .error msg

/-- The `lru_cache(maxsize=1)` slot on the zero-argument
`fetch_tor_descriptor`, instrumented with a count of underlying query
invocations. -/
structure DescCacheState where
  cached : Option DescResult
  queryCalls : Nat
deriving DecidableEq

/-- Embedding of the memoized `fetch_tor_descriptor`: a filled cache is
returned untouched; a cold cache runs the body once (bumping the query
counter) and stores whatever it returned, errors included. -/
def fetch_tor_descriptor (q : DescQuery) (st : DescCacheState) :
    DescResult × DescCacheState :=
  match st.cached with
  | some r => (r, st)
  | none =>
      let r := fetch_tor_descriptor_body q
      (r, { cached := some r, queryCalls := st.queryCalls + 1 })

/-- The components of `urllib.parse.urlparse` the code uses. -/
structure ParsedUrl where
  scheme : String
  netloc : String
  path : String
deriving DecidableEq

/-- The slash character. -/
def slashChar : Char := Char.ofNat 47

/-- Simplified `urllib.parse.urlparse` covering the URL forms the
scanner handles: an optional `scheme://` marker, then the netloc up to
the first slash, then the path. -/
def urlparse (url : String) : ParsedUrl :=
  let cs := url.toList
  match findIdx? "://".toList cs with
  | none => { scheme := "", netloc := "", path := url }
  | some i =>
    let after := cs.drop (i + 3)
    let netloc := after.takeWhile (fun c => c ≠ slashChar)
    { scheme := String.mk (cs.take i), netloc := String.mk netloc,
      path := String.mk (after.drop netloc.length) }

/-- The `hostname` attribute of a parse result: the netloc with any
userinfo and port stripped, lowercased; empty when there is no host
(Python's `None`, which is falsy exactly like the empty string). -/
def hostnameOf (p : ParsedUrl) : String :=
  let cs := p.netloc.toList
  let afterAt := (cs.reverse.takeWhile (fun c => c ≠ Char.ofNat 64)).reverse
  let host := afterAt.takeWhile (fun c => c ≠ Char.ofNat 58)
  String.mk (host.map Char.toLower)

/-- Keep everything up to and including the last slash of the path. -/
def dirOfPath (path : String) : String :=
  String.mk (path.toList.reverse.dropWhile (fun c => c ≠ slashChar)).reverse

/-- Simplified `urllib.parse.urljoin` covering the joins the scanner
performs: an absolute reference wins, a root-relative reference replaces
the whole path, and a plain relative reference replaces the last path
segment (an empty base path acting as the root). -/
def urljoin (base url : String) : String :=
  if (findIdx? "://".toList url.toList).isSome then url
  else
    let p := urlparse base
    if url.toList.headD (Char.ofNat 0) == slashChar then
      p.scheme ++ "://" ++ p.netloc ++ url
    else
      let dir := if p.path = "" then "/" else dirOfPath p.path
      p.scheme ++ "://" ++ p.netloc ++ dir ++ url

/-- Outcome of one `session.get` call: a response with a status code, or
a raised `requests.RequestException` with its message. -/
inductive ReqOutcome where
  | resp (status : Nat)
  | exn (msg : String)
deriving DecidableEq

/-- One entry of the `check_common_files` findings list. -/
structure Finding where
  path : String
  status : Nat
deriving DecidableEq

/-- The six fixed well-known paths of `check_common_files`
(`main.py` lines 72-79). -/
def common_paths : List String :=
  ["/robots.txt", "/.git/HEAD", "/.env", "/admin", "/config.php",
   "/server-status"]

/-- Embedding of `check_common_files` (`main.py` lines 69-91): derive
the base from scheme and netloc, probe each fixed path via the session
(environment function `get`, keyed by the full URL), keep a
`{path, status}` entry for HTTP 200 responses, drop non-200 responses,
and skip a raised request exception and continue with the next path. -/
def check_common_files (get : String → ReqOutcome) (onion_url : String) :
    List Finding :=
  let p := urlparse onion_url
  let base := p.scheme ++ "://" ++ p.netloc
  common_paths.filterMap fun path =>
    match get (urljoin base path) with
    | .resp code => if code == 200 then some { path := path, status := code } else none
    | .exn _ => none

/-- The single quote character. -/
def squoteChar : Char := Char.ofNat 39

/-- The double quote character. -/
def dquoteChar : Char := Char.ofNat 34

/-- Membership in the quote character class of the vendored `bs4` stub's
attribute regex (either kind of quote, opener and closer independent). -/
def isQuoteChar (c : Char) : Bool := c == squoteChar || c == dquoteChar

/-- One attempted match of the stub regex `attr=['"]([^'"]+)['"]` at the
head of `l`: the literal `attr=`, a quote, one or more non-quote
characters (greedy, no backtracking possible since the closer is not in
the class), and a closing quote.  Returns the captured value and the
rest of the input after the match. -/
def tryAttr (pat : List Char) (l : List Char) : Option (List Char × List Char) :=
  if pat.isPrefixOf l then
    match l.drop pat.length with
    | q :: l2 =>
      if isQuoteChar q then
        let content := l2.takeWhile (fun c => !isQuoteChar c)
        match l2.drop content.length with
        | q2 :: after =>
            if isQuoteChar q2 && !content.isEmpty then some (content, after)
            else none
        | [] => none
      else none
    | [] => none
  else none

/-- Left-to-right non-overlapping scan in the manner of `re.findall`: at
each position try a match; on success emit it and resume after it, on
failure advance one character.  The fuel equals the input length and
every step consumes at least one character. -/
def attrScanAux (pat : List Char) : Nat → List Char → List (List Char)
  | 0, _ => []
  | _ + 1, [] => []
  | n + 1, c :: rest =>
    match tryAttr pat (c :: rest) with
    | some va => va.1 :: attrScanAux pat n va.2
    | none => attrScanAux pat n rest

/-- All values of the given attribute found in the HTML, in order of
occurrence, per the vendored `bs4` stub's regex
(`src/bs4/__init__.py`): `BeautifulSoup.find_all` matches
`attr=['"]([^'"]+)['"]` anywhere in the raw text. -/
def attrValues (attr html : String) : List String :=
  let pat := (attr ++ "=").toList
  (attrScanAux pat html.toList.length html.toList).map String.mk

/-- Embedding of `extract_onion_links` (`main.py` lines 160-166): the
href values of the anchors the parser finds, kept when they contain the
substring `".onion"` anywhere, collected through a Python set (so
duplicates collapse; the set's iteration order is unspecified, which
`List.dedup` refines deterministically while preserving membership). -/
def extract_onion_links (html : String) : List String :=
  ((attrValues "href" html).filter (fun s => containsSubstr s ".onion")).dedup

/-- Embedding of `extract_metadata` (`main.py` lines 154-157): keep the
headers whose lowercased name is `server` or `x-powered-by`. -/
def extract_metadata (headers : List (String × String)) :
    List (String × String) :=
  headers.filter fun kv =>
    lowerStr kv.1 == "server" || lowerStr kv.1 == "x-powered-by"

/-- Membership in the base58-like class `[a-km-zA-HJ-NP-Z1-9]` of the
bitcoin address regex. -/
def isB58 (c : Char) : Bool :=
  (Char.ofNat 97 ≤ c && c ≤ Char.ofNat 107) ||
  (Char.ofNat 109 ≤ c && c ≤ Char.ofNat 122) ||
  (Char.ofNat 65 ≤ c && c ≤ Char.ofNat 72) ||
  (Char.ofNat 74 ≤ c && c ≤ Char.ofNat 78) ||
  (Char.ofNat 80 ≤ c && c ≤ Char.ofNat 90) ||
  (Char.ofNat 49 ≤ c && c ≤ Char.ofNat 57)

/-- Scan for `re.findall(r"[13][a-km-zA-HJ-NP-Z1-9]{25,34}", html)`: at
a `1` or `3`, greedily take up to 34 following class characters; a run
of at least 25 is a match (nothing follows the counted class, so the
greedy take never backtracks); otherwise advance one character. -/
def btcScanAux : Nat → List Char → List (List Char)
  | 0, _ => []
  | _ + 1, [] => []
  | n + 1, c :: rest =>
    if c == Char.ofNat 49 || c == Char.ofNat 51 then
      let body := (rest.takeWhile isB58).take 34
      if 25 ≤ body.length then
        (c :: body) :: btcScanAux n (rest.drop body.length)
      else btcScanAux n rest
    else btcScanAux n rest

/-- Embedding of `extract_bitcoin_addresses` (`main.py` lines 169-172). -/
def extract_bitcoin_addresses (html : String) : List String :=
  (btcScanAux html.toList.length html.toList).map String.mk

/-- The opening marker of a PGP public key block. -/
def pgpBegin : List Char := "-----BEGIN PGP PUBLIC KEY BLOCK-----".toList

/-- The closing marker of a PGP public key block. -/
def pgpEnd : List Char := "-----END PGP PUBLIC KEY BLOCK-----".toList

/-- Scan for the DOTALL non-greedy regex
`BEGIN-marker .*? END-marker`: each match runs from an opening marker to
the nearest closing marker after it, and scanning resumes after the
match.  Every step consumes at least the opening marker, so fuel equal
to the input length suffices. -/
def pgpScanAux : Nat → List Char → List (List Char)
  | 0, _ => []
  | n + 1, l =>
    match findIdx? pgpBegin l with
    | none => []
    | some i =>
      match findIdx? pgpEnd (l.drop (i + pgpBegin.length)) with
      | none => []
      | some j =>
        let len := pgpBegin.length + j + pgpEnd.length
        ((l.drop i).take len) :: pgpScanAux n (l.drop (i + len))

/-- Embedding of `extract_pgp_keys` (`main.py` lines 175-182). -/
def extract_pgp_keys (html : String) : List String :=
  (pgpScanAux html.toList.length html.toList).map String.mk

/-- Membership in the class `[\w.-]` of the email regex, over ASCII
text: letters, digits, underscore, dot, hyphen. -/
def isWordDot (c : Char) : Bool :=
  c.isAlphanum || c == Char.ofNat 95 || c == Char.ofNat 46 || c == Char.ofNat 45

/-- Scan for `re.findall(r"[\w.-]+@[\w.-]+", html)`: a maximal nonempty
class run, an `@`, and a maximal nonempty class run (the `@` is not in
the class, so greedy runs never backtrack); on failure advance one
character, on success resume after the match. -/
def emailScanAux : Nat → List Char → List (List Char)
  | 0, _ => []
  | _ + 1, [] => []
  | n + 1, c :: rest =>
    let l := (c :: rest).takeWhile isWordDot
    if l.isEmpty then emailScanAux n rest
    else
      match (c :: rest).drop l.length with
      | a :: tail =>
        if a == Char.ofNat 64 then
          let r := tail.takeWhile isWordDot
          if r.isEmpty then emailScanAux n rest
          else (l ++ a :: r) :: emailScanAux n (tail.drop r.length)
        else emailScanAux n rest
      | [] => emailScanAux n rest

/-- One attempted match of `UA-\d+-\d+` at the head of the input. -/
def tryGA (l : List Char) : Option (List Char × List Char) :=
  let ua : List Char := "UA-".toList
  if ua.isPrefixOf l then
    let l1 := l.drop ua.length
    let d1 := l1.takeWhile Char.isDigit
    if d1.isEmpty then none
    else
      match l1.drop d1.length with
      | h :: l2 =>
        if h == Char.ofNat 45 then
          let d2 := l2.takeWhile Char.isDigit
          if d2.isEmpty then none
          else some (ua ++ d1 ++ h :: d2, l2.drop d2.length)
        else none
      | [] => none
  else none

/-- Scan for `re.findall(r"UA-\d+-\d+", html)`. -/
def gaScanAux : Nat → List Char → List (List Char)
  | 0, _ => []
  | _ + 1, [] => []
  | n + 1, c :: rest =>
    match tryGA (c :: rest) with
    | some va => va.1 :: gaScanAux n va.2
    | none => gaScanAux n rest

/-- The two-key dictionary `extract_emails_and_ids` returns. -/
structure EmailsIds where
  emails : List String
  google_analytics_ids : List String
deriving DecidableEq

/-- Embedding of `extract_emails_and_ids` (`main.py` lines 185-190). -/
def extract_emails_and_ids (html : String) : EmailsIds :=
  { emails := (emailScanAux html.toList.length html.toList).map String.mk,
    google_analytics_ids := (gaScanAux html.toList.length html.toList).map String.mk }

/-- Outcome of the proxied TLS handshake of `extract_cert_info`: the
peer certificate's fields as `getpeercert()` exposes them (subject and
issuer as tuples of relative distinguished names, already defaulted to
empty by `cert.get(..., [])`; validity bounds possibly absent), or a
raised `OSError` / `ssl.SSLError` / `socks.ProxyError` with its rendered
message. -/
inductive CertOutcome where
  | cert (subject issuer : List (List (String × String)))
      (notBefore notAfter : Option String)
  | connError (msg : String)
deriving DecidableEq

/-- The two dictionary shapes `extract_cert_info` returns. -/
inductive CertResult where
  | info (subject issuer : List (List (String × String)))
      (notBefore notAfter : Option String)
  | error (msg : String)
deriving DecidableEq

/-- Embedding of `extract_cert_info` (`main.py` lines 94-115). -/
def extract_cert_info (outcome : CertOutcome) : CertResult :=
  match outcome with
  | .cert s i nb na => .info s i nb na
  | .connError msg => .error msg

/-- Lowercase hexadecimal digit. -/
def hexDigit (n : Nat) : Char :=
  if n < 10 then Char.ofNat (48 + n) else Char.ofNat (87 + n)

/-- Fixed-width lowercase hexadecimal rendering of a number. -/
def hexStr (width n : Nat) : String :=
  String.mk ((List.range width).map fun i =>
    hexDigit (n / 16 ^ (width - 1 - i) % 16))

/-- Python `bytes.hex()`: two lowercase hex digits per byte. -/
def bytesHex (bs : List Nat) : String :=
  String.join (bs.map (hexStr 2))

/-- An EXIF tag value as the code distinguishes them: raw bytes are
rendered to hex, anything else is kept as is (numbers and strings cover
what the claims exercise). -/
inductive ExifVal where
  | natVal (n : Nat)
  | bytesVal (bs : List Nat)
  | strVal (s : String)
deriving DecidableEq

/-- The cleanup `extract_exif_data_from_images` applies to one tag
value: `val.hex()` for bytes, identity otherwise. -/
def cleanExifVal : ExifVal → ExifVal
  | .bytesVal bs => .strVal (bytesHex bs)
  | v => v

/-- Outcome of `Image.open` plus `getexif` on downloaded bytes: the tag
map, or a raised `OSError` / `UnidentifiedImageError`. -/
inductive ImgOutcome where
  | img (exif : List (Nat × ExifVal))
  | openError
deriving DecidableEq

/-- One entry of the `extract_exif_data_from_images` result list. -/
structure ExifFinding where
  src : String
  exif : List (Nat × ExifVal)
deriving DecidableEq

/-- Embedding of `extract_exif_data_from_images` (`main.py` lines
193-220): for each image source the parser finds, resolve it against the
base URL, fetch it (environment `imgGet`; a request failure skips the
image), decode it (environment `imgDecode`; a decode failure skips the
image), skip empty tag maps, and otherwise record the resolved source
with the cleaned tag map. -/
def extract_exif_data_from_images (imgGet : String → Option (List Nat))
    (imgDecode : List Nat → ImgOutcome) (html base_url : String) :
    List ExifFinding :=
  (attrValues "src" html).filterMap fun src =>
    let full := urljoin base_url src
    match imgGet full with
    | none => none
    | some data =>
      match imgDecode data with
      | .openError => none
      | .img exif =>
        if exif.isEmpty then none
        else some { src := full, exif := exif.map fun tv => (tv.1, cleanExifVal tv.2) }

/-- Truncation to a 32-bit word. -/
def w32 (n : Nat) : Nat := n % 4294967296

/-- Left rotation of a 32-bit word. -/
def rotl (n x : Nat) : Nat := w32 (x * 2 ^ n + x / 2 ^ (32 - n))

/-- The SHA-1 round function. -/
def sha1F (t b c d : Nat) : Nat :=
  if t < 20 then (b &&& c) ||| ((4294967295 ^^^ b) &&& d)
  else if t < 40 then b ^^^ c ^^^ d
  else if t < 60 then (b &&& c) ||| (b &&& d) ||| (c &&& d)
  else b ^^^ c ^^^ d

/-- The SHA-1 round constants. -/
def sha1K (t : Nat) : Nat :=
  if t < 20 then 0x5A827999
  else if t < 40 then 0x6ED9EBA1
  else if t < 60 then 0x8F1BBCDC
  else 0xCA62C1D6

/-- Big-endian rendering of a number as `width` bytes. -/
def beBytes (width n : Nat) : List Nat :=
  (List.range width).map fun i => n / 2 ^ (8 * (width - 1 - i)) % 256

/-- SHA-1 message padding: a `0x80` byte, zeros to 56 mod 64, and the
bit length as eight big-endian bytes. -/
def sha1Pad (msg : List Nat) : List Nat :=
  msg ++ 128 :: List.replicate ((119 - msg.length % 64) % 64) 0 ++
    beBytes 8 (8 * msg.length)

/-- Group four big-endian bytes into one 32-bit word. -/
def toWords : List Nat → List Nat
  | b1 :: b2 :: b3 :: b4 :: rest =>
      (((b1 * 256 + b2) * 256 + b3) * 256 + b4) :: toWords rest
  | _ => []

/-- Extend the 16-word schedule by `n` further words. -/
def sha1Extend : Nat → List Nat → List Nat
  | 0, ws => ws
  | n + 1, ws =>
    let i := ws.length
    let x := rotl 1 (ws.getD (i - 3) 0 ^^^ ws.getD (i - 8) 0 ^^^
      ws.getD (i - 14) 0 ^^^ ws.getD (i - 16) 0)
    sha1Extend n (ws ++ [x])

/-- One SHA-1 compression step over a 64-byte block. -/
def sha1Compress (h : List Nat) (block : List Nat) : List Nat :=
  let ws := sha1Extend 64 (toWords block)
  let st0 := (h.getD 0 0, h.getD 1 0, h.getD 2 0, h.getD 3 0, h.getD 4 0)
  let st := (List.range 80).foldl
    (fun (st : Nat × Nat × Nat × Nat × Nat) t =>
      let temp := w32 (rotl 5 st.1 + sha1F t st.2.1 st.2.2.1 st.2.2.2.1 +
        st.2.2.2.2 + sha1K t + ws.getD t 0)
      (temp, st.1, rotl 30 st.2.1, st.2.2.1, st.2.2.2.1)) st0
  [w32 (h.getD 0 0 + st.1), w32 (h.getD 1 0 + st.2.1),
   w32 (h.getD 2 0 + st.2.2.1), w32 (h.getD 3 0 + st.2.2.2.1),
   w32 (h.getD 4 0 + st.2.2.2.2)]

/-- Split into 64-byte blocks (fuel equal to the length suffices since
every step consumes at least one byte). -/
def chunks64 : Nat → List Nat → List (List Nat)
  | 0, _ => []
  | _ + 1, [] => []
  | n + 1, l => l.take 64 :: chunks64 n (l.drop 64)

/-- SHA-1 digest of a byte list, rendered as 40 lowercase hex digits. -/
def sha1Hex (msg : List Nat) : String :=
  let padded := sha1Pad msg
  let hs := (chunks64 padded.length padded).foldl sha1Compress
    [0x67452301, 0xEFCDAB89, 0x98BADCFE, 0x10325476, 0xC3D2E1F0]
  String.join (hs.map (hexStr 8))

/-- Standard UTF-8 encoding of one character. -/
def utf8EncodeChar (c : Char) : List Nat :=
  let n := c.toNat
  if n < 128 then [n]
  else if n < 2048 then [192 + n / 64, 128 + n % 64]
  else if n < 65536 then [224 + n / 4096, 128 + n / 64 % 64, 128 + n % 64]
  else [240 + n / 262144, 128 + n / 4096 % 64, 128 + n / 64 % 64, 128 + n % 64]

/-- Python `str.encode()`: UTF-8 bytes of a string. -/
def utf8Encode (s : String) : List Nat :=
  s.toList.foldr (fun c acc => utf8EncodeChar c ++ acc) []

/-- Embedding of `html_fingerprint` (`main.py` lines 223-226): the SHA-1
hex digest of the UTF-8 encoded HTML. -/
def html_fingerprint (html : String) : String :=
  sha1Hex (utf8Encode html)

/-- Outcome of `session.get` on the page itself: a response carrying its
body text (possibly empty) and header map, or a raised
`requests.RequestException` with its rendered message. -/
inductive FetchOutcome where
  | resp (text : String) (headers : List (String × String))
  | exn (msg : String)
deriving DecidableEq

/-- An element of the report's heterogeneous `errors` list: the code
appends either a string or the response header map there. -/
inductive ErrEntry where
  | str (s : String)
  | hdrs (h : List (String × String))
deriving DecidableEq

/-- Embedding of `fetch_html_via_tor` (`main.py` lines 58-66): on
success the pair (text, headers), on a request exception the pair
(None, rendered message). -/
def fetch_html_via_tor (outcome : FetchOutcome) : Option String × ErrEntry :=
  match outcome with
  | .resp text headers => (some text, .hdrs headers)
  | .exn msg => (none, .str msg)

/-- The network environment one `scan_service` run sees: the outcome of
the page fetch, of each `session.get` by URL, of each image fetch and
decode, of the TLS handshake, of each banner connection by port, and of
the directory query. -/
structure ScanEnv where
  fetch : FetchOutcome
  get : String → ReqOutcome
  imgGet : String → Option (List Nat)
  imgDecode : List Nat → ImgOutcome
  cert : CertOutcome
  conn : Nat → ConnOutcome
  descQuery : DescQuery

/-- The scan report dictionary.  The twelve fields initialized at
`main.py` lines 251-264 are structure fields (`Option` types whose
`none` stands for the `{}` placeholder a skipped probe leaves behind);
the dynamic `{protocol}_info` keys added by `result.update(...)` are the
`protocol_info` association list, empty when the protocol sweep never
ran. -/
structure ScanReport where
  url : String
  errors : List ErrEntry
  metadata : List (String × String)
  linked_onions : List String
  cert_info : Option CertResult
  exposed_files : List Finding
  bitcoin_addresses : List String
  pgp_keys : List String
  emails_and_ids : Option EmailsIds
  exif_data : List ExifFinding
  html_sha1 : String
  tor_descriptor : Option DescResult
  protocol_info : List (String × BannerResult)
deriving DecidableEq

/-- The freshly initialized report of `main.py` lines 251-264: every
field at its empty default. -/
def initReport (url : String) : ScanReport :=
  { url := url, errors := [], metadata := [], linked_onions := [],
    cert_info := none, exposed_files := [], bitcoin_addresses := [],
    pgp_keys := [], emails_and_ids := none, exif_data := [],
    html_sha1 := "", tor_descriptor := none, protocol_info := [] }

/-- Embedding of `scan_service` (`main.py` lines 248-289).  A falsy
page body (`None` from a request exception, or the empty string) takes
the short-circuit branch: the second component of the fetch result —
the rendered exception, or the header map itself — is appended to
`errors` and the otherwise untouched report is returned.  Otherwise
every content probe runs, and when the parsed hostname is truthy the
certificate read and the protocol sweep run as well.  (`scan_service`
reads the descriptor through the `lru_cache` wrapper; its value equals
the uncached body's value because within one process the cache slot only
ever holds this same query's result.)  The `except` clause at line 286
is unreachable in this model: `urlparse` on a string does not raise
`OSError`/`SSLError`, and both probes of the guarded block catch their
own exceptions. -/
def scan_service (env : ScanEnv) (onion_url : String) : ScanReport :=
  let r0 := initReport onion_url
  match fetch_html_via_tor env.fetch with
  | (none, e) => { r0 with errors := [e] }
  | (some html, e) =>
    if html = "" then { r0 with errors := [e] }
    else
      let headers := match e with | .hdrs h => h | .str _ => []
      let r1 := { r0 with
        metadata := extract_metadata headers,
        linked_onions := extract_onion_links html,
        exposed_files := check_common_files env.get onion_url,
        bitcoin_addresses := extract_bitcoin_addresses html,
        pgp_keys := extract_pgp_keys html,
        emails_and_ids := some (extract_emails_and_ids html),
        exif_data := extract_exif_data_from_images env.imgGet env.imgDecode
          html onion_url,
        html_sha1 := html_fingerprint html,
        tor_descriptor := some (fetch_tor_descriptor_body env.descQuery) }
      let hn := hostnameOf (urlparse onion_url)
      if hn = "" then r1
      else { r1 with
        cert_info := some (extract_cert_info env.cert),
        protocol_info := scan_protocols env.conn }

/-- The twelve fixed keys every report dictionary starts with. -/
def baseKeys : List String :=
  ["url", "errors", "metadata", "linked_onions", "cert_info",
   "exposed_files", "bitcoin_addresses", "pgp_keys", "emails_and_ids",
   "exif_data", "html_sha1", "tor_descriptor"]

/-- The key set of the report dictionary: the twelve fixed keys plus
whatever `{protocol}_info` keys `result.update(scan_protocols(...))`
added. -/
def reportKeys (r : ScanReport) : List String :=
  baseKeys ++ r.protocol_info.map Prod.fst

/-- Numeric value of a decimal digit string. -/
def strToNat (s : String) : Nat :=
  s.toList.foldl (fun acc c => acc * 10 + (c.toNat - 48)) 0

/-- Did the page fetch produce a truthy body: a response whose text is
nonempty? -/
def fetchOk : FetchOutcome → Bool
  | .resp t _ => !(t == "")
  | .exn _ => false

/-- C3: proxy config resolution obeys the precedence CLI argument >
environment variable > hardcoded default `127.0.0.1:9050`, and a
non-numeric port string from whichever source was selected always
yields port `"9050"`. -/
theorem proxy_config_precedence (ch cp eh ep : Option String) :
    (falsy ch = false → (_get_proxy_config ch cp eh ep).1 = ch.getD "") ∧
    (falsy ch = true → falsy eh = false →
      (_get_proxy_config ch cp eh ep).1 = eh.getD "") ∧
    (falsy ch = true → falsy eh = true →
      (_get_proxy_config ch cp eh ep).1 = "127.0.0.1") ∧
    (falsy cp = false → strIsDigit (cp.getD "") = true →
      (_get_proxy_config ch cp eh ep).2 = cp.getD "") ∧
    (falsy cp = false → strIsDigit (cp.getD "") = false →
      (_get_proxy_config ch cp eh ep).2 = "9050") ∧
    (falsy cp = true → falsy ep = false → strIsDigit (ep.getD "") = true →
      (_get_proxy_config ch cp eh ep).2 = ep.getD "") ∧
    (falsy cp = true → falsy ep = false → strIsDigit (ep.getD "") = false →
      (_get_proxy_config ch cp eh ep).2 = "9050") ∧
    (falsy cp = true → falsy ep = true →
      (_get_proxy_config ch cp eh ep).2 = "9050") := by
  refine ⟨fun h1 => ?_, fun h1 h2 => ?_, fun h1 h2 => ?_, fun h1 h2 => ?_,
    fun h1 h2 => ?_, fun h1 h2 h3 => ?_, fun h1 h2 h3 => ?_, fun h1 h2 => ?_⟩ <;>
  simp_all [_get_proxy_config, pyOr]

/-- Witness for C3 at concrete inputs: a CLI pair beats the environment
pair, a non-numeric CLI port yields the default, the environment port is
used when the CLI is silent, and everything absent yields the default. -/
theorem proxy_config_precedence_witness :
    (_get_proxy_config (some "clihost") (some "2222") (some "envhost")
      (some "1111")).1 = "clihost" ∧
    (_get_proxy_config (some "clihost") (some "2222") (some "envhost")
      (some "1111")).2 = "2222" ∧
    (_get_proxy_config none (some "abc") none (some "1111")).2 = "9050" ∧
    (_get_proxy_config none none (some "envhost") (some "1111")).2 = "1111" ∧
    (_get_proxy_config none none none none).2 = "9050" :=
  ⟨(proxy_config_precedence (some "clihost") (some "2222") (some "envhost")
      (some "1111")).1 (by decide),
   (proxy_config_precedence (some "clihost") (some "2222") (some "envhost")
      (some "1111")).2.2.2.1 (by decide) (by decide),
   (proxy_config_precedence none (some "abc") none (some "1111")).2.2.2.2.1
      (by decide) (by decide),
   (proxy_config_precedence none none (some "envhost") (some "1111")).2.2.2.2.2.1
      (by decide) (by decide) (by decide),
   (proxy_config_precedence none none none none).2.2.2.2.2.2.2
      (by decide) (by decide)⟩

/-- Counterexample to C4: the code only checks `isdigit`, not the range
1-65535.  The environment port `"0"` resolves to `"0"` (numeric value 0,
below the range) and the CLI port `"70000"` resolves to `"70000"`
(numeric value above 65535); neither falls back to `"9050"`. -/
theorem proxy_port_out_of_range :
    (_get_proxy_config none none none (some "0")).2 = "0" ∧
    ¬ 1 ≤ strToNat (_get_proxy_config none none none (some "0")).2 ∧
    (_get_proxy_config none (some "70000") none none).2 = "70000" ∧
    ¬ strToNat (_get_proxy_config none (some "70000") none none).2 ≤ 65535 := by
  decide

/-- C4 amended: the resolved port is always a digit string, but it is
not range-checked — any numeric port string from the selected source,
including out-of-range values such as `"0"` or `"70000"`, is kept
verbatim; only a missing, empty or non-numeric port falls back to
`"9050"`. -/
theorem proxy_port_digit_or_default (ch cp eh ep : Option String) :
    strIsDigit (_get_proxy_config ch cp eh ep).2 = true ∧
    ((_get_proxy_config ch cp eh ep).2 = "9050" ∨
      (_get_proxy_config ch cp eh ep).2 =
        (if falsy cp then ep.getD "" else cp.getD "")) ∧
    (∀ s : String, strIsDigit s = true →
      (_get_proxy_config ch (some s) eh ep).2 = s) := by
  refine ⟨?_, ?_, fun s hs => ?_⟩
  · by_cases h : falsy (pyOr cp ep) || !strIsDigit ((pyOr cp ep).getD "")
    · simp_all [_get_proxy_config]
      decide
    · simp_all [_get_proxy_config]
  · by_cases h : falsy (pyOr cp ep) || !strIsDigit ((pyOr cp ep).getD "")
    · left
      simp_all [_get_proxy_config]
    · right
      have hv : (_get_proxy_config ch cp eh ep).2 = (pyOr cp ep).getD "" := by
        simp_all [_get_proxy_config]
      rw [hv, pyOr]
      cases hc : falsy cp <;> simp
  · have hne : s ≠ "" := by
      intro he
      subst he
      simp [strIsDigit] at hs
      exact absurd hs (by decide)
    simp_all [_get_proxy_config, pyOr, falsy, hne]

/-- Witness for C4's amended claim: the out-of-range numeric port
`"70000"` is kept verbatim. -/
theorem proxy_port_digit_or_default_witness :
    (_get_proxy_config none (some "70000") none none).2 = "70000" :=
  (proxy_port_digit_or_default none (some "70000") none none).2.2 "70000" (by decide)

/-- C5: calling `get_tor_session` twice without a reset returns the
identical session, leaves the state of the first call untouched, bumps
the construction counter exactly once, and the constructed session is
the one built from the resolved proxy config with the fixed browser-like
user agent. -/
theorem get_tor_session_singleton (ch cp eh ep : Option String)
    (st : TransportState) (h : st.torSession = none) :
    (get_tor_session ch cp eh ep (get_tor_session ch cp eh ep st).2).1 =
      (get_tor_session ch cp eh ep st).1 ∧
    (get_tor_session ch cp eh ep (get_tor_session ch cp eh ep st).2).2 =
      (get_tor_session ch cp eh ep st).2 ∧
    (get_tor_session ch cp eh ep st).2.ctorCalls = st.ctorCalls + 1 ∧
    (get_tor_session ch cp eh ep st).1 = mkSession ch cp eh ep := by
  simp [get_tor_session, h]

/-- Witness for C5: two calls from the empty transport state with the
environment pair `host:1234` yield the same session, one construction,
and the session the test expects. -/
theorem get_tor_session_singleton_witness :
    (get_tor_session none none (some "host") (some "1234")
        (get_tor_session none none (some "host") (some "1234")
          { torSession := none, ctorCalls := 0 }).2).1 =
      (get_tor_session none none (some "host") (some "1234")
        { torSession := none, ctorCalls := 0 }).1 ∧
    (get_tor_session none none (some "host") (some "1234")
        { torSession := none, ctorCalls := 0 }).2.ctorCalls = 0 + 1 :=
  ⟨(get_tor_session_singleton none none (some "host") (some "1234")
      { torSession := none, ctorCalls := 0 } rfl).1,
   (get_tor_session_singleton none none (some "host") (some "1234")
      { torSession := none, ctorCalls := 0 } rfl).2.2.1⟩

/-- C6: `scan_banner` is total and returns exactly one of three shapes:
on a successful connection the `{label}_banner` dictionary holding the
first 1024 bytes read, best-effort decoded and trimmed; the
distinguished `{status: "closed"}` exactly when the raised `OSError`
reports a refused connection; and `{error: msg}` on any other I/O
failure. -/
theorem scan_banner_spec (label : String) :
    (∀ data : List Nat, scan_banner (.ok data) label =
      .banner label (pyStrip (utf8DecodeIgnore (data.take 1024)))) ∧
    (∀ msg, refusedMsg msg = true → scan_banner (.osError msg) label = .closed) ∧
    (∀ msg, refusedMsg msg = false →
      scan_banner (.osError msg) label = .ioError msg) ∧
    (∀ conn, (∃ b, scan_banner conn label = .banner label b) ∨
      scan_banner conn label = .closed ∨
      ∃ m, scan_banner conn label = .ioError m) := by
  refine ⟨fun data => rfl, fun msg h => ?_, fun msg h => ?_, fun conn => ?_⟩
  · simp [scan_banner, h]
  · simp [scan_banner, h]
  · cases conn with
    | ok data => exact .inl ⟨_, rfl⟩
    | osError msg =>
      by_cases h : refusedMsg msg
      · exact .inr (.inl (by simp [scan_banner, h]))
      · exact .inr (.inr ⟨msg, by simp [scan_banner, h]⟩)

/-- Witness for C6: a banner read is trimmed and decoded, a refused
connection yields the closed marker, a timeout yields the error shape. -/
theorem scan_banner_spec_witness :
    scan_banner (.ok [32, 83, 83, 72, 45, 50, 46, 48, 32]) "ssh" =
      .banner "ssh" "SSH-2.0" ∧
    scan_banner (.osError "[Errno 111] Connection refused") "ssh" = .closed ∧
    scan_banner (.osError "timed out") "ssh" = .ioError "timed out" :=
  ⟨((scan_banner_spec "ssh").1 [32, 83, 83, 72, 45, 50, 46, 48, 32]).trans
      (by decide),
   (scan_banner_spec "ssh").2.1 "[Errno 111] Connection refused" (by decide),
   (scan_banner_spec "ssh").2.2.1 "timed out" (by decide)⟩

/-- C7: the descriptor lookup returns the four fields of the first
descriptor when the query yields a non-empty collection; it returns an
error dictionary with a non-empty message when the collection is empty,
and the failure's message when the query fails; and from a cold cache a
second call returns the memoized result — errors included — with the
underlying query performed exactly once. -/
theorem fetch_tor_descriptor_spec :
    (∀ (d : Descriptor) (ds : List Descriptor),
      fetch_tor_descriptor_body (.descs (d :: ds)) =
        .info d.nickname d.published d.platform d.contact) ∧
    (fetch_tor_descriptor_body (.descs []) = .error "no descriptors" ∧
      "no descriptors" ≠ "") ∧
    (∀ msg, fetch_tor_descriptor_body (.unavailable msg) = .error msg) ∧
    (∀ msg : String, msg ≠ "" →
      ∃ m, fetch_tor_descriptor_body (.unavailable msg) = .error m ∧ m ≠ "") ∧
    (∀ (q : DescQuery) (st : DescCacheState), st.cached = none →
      (fetch_tor_descriptor q (fetch_tor_descriptor q st).2).1 =
        (fetch_tor_descriptor q st).1 ∧
      (fetch_tor_descriptor q st).1 = fetch_tor_descriptor_body q ∧
      (fetch_tor_descriptor q (fetch_tor_descriptor q st).2).2.queryCalls =
        st.queryCalls + 1) := by
  refine ⟨fun d ds => rfl, ⟨rfl, by decide⟩, fun msg => rfl,
    fun msg hm => ⟨msg, rfl, hm⟩, fun q st h => ?_⟩
  simp [fetch_tor_descriptor, h]

/-- Witness for C7: with a query stubbed to return zero descriptors and
a cold cache, the result is the non-empty error `"no descriptors"`, a
second call returns the same memoized error, and the underlying query
ran exactly once. -/
theorem fetch_tor_descriptor_spec_witness :
    (fetch_tor_descriptor (.descs [])
        (fetch_tor_descriptor (.descs [])
          { cached := none, queryCalls := 0 }).2).1 =
      (fetch_tor_descriptor (.descs [])
        { cached := none, queryCalls := 0 }).1 ∧
    (fetch_tor_descriptor (.descs [])
        { cached := none, queryCalls := 0 }).1 = .error "no descriptors" ∧
    (fetch_tor_descriptor (.descs [])
        (fetch_tor_descriptor (.descs [])
          { cached := none, queryCalls := 0 }).2).2.queryCalls = 0 + 1 := by
  have h := fetch_tor_descriptor_spec.2.2.2.2 (.descs [])
    { cached := none, queryCalls := 0 } rfl
  exact ⟨h.1, h.2.1.trans fetch_tor_descriptor_spec.2.1.1, h.2.2⟩

/-- C8: `check_common_files` probes the six fixed well-known paths
against the base URL derived from the target; a finding is in the result
exactly when its path is one of the six and the response for the joined
URL had status 200 (its recorded status then being 200); non-200
responses contribute nothing and a raised request exception on one path
neither raises nor stops the remaining paths — with a stub answering 200
only for `/admin` and failing every other path, the result is exactly
the single finding for `/admin`. -/
theorem check_common_files_spec :
    (∀ (get : String → ReqOutcome) (url : String) (f : Finding),
      f ∈ check_common_files get url ↔
        f.path ∈ common_paths ∧ f.status = 200 ∧
        get (urljoin ((urlparse url).scheme ++ "://" ++ (urlparse url).netloc)
          f.path) = .resp 200) ∧
    check_common_files
      (fun u => if u = "http://x.onion/admin" then .resp 200
        else .exn "proxy failure")
      "http://x.onion" = [{ path := "/admin", status := 200 }] := by
  constructor
  · intro get url f
    simp only [check_common_files, List.mem_filterMap]
    constructor
    · rintro ⟨p, hp, hf⟩
      cases hg : get (urljoin ((urlparse url).scheme ++ "://" ++
          (urlparse url).netloc) p) with
      | resp code =>
        rw [hg] at hf
        by_cases hc : code == 200
        · simp only [hc, if_pos] at hf
          cases hf
          exact ⟨hp, by simp_all, by rw [hg, show code = 200 from by simp_all]⟩
        · simp [hc] at hf
      | exn m => rw [hg] at hf; simp at hf
    · rintro ⟨hp, hs, hg⟩
      refine ⟨f.path, hp, ?_⟩
      rw [hg]
      simp only [beq_self_eq_true, if_pos]
      cases f
      simp_all
  · decide

/-- C1: when the page fetch fails with reason `r`, `scan_service`
returns the report whose errors list is exactly `[r]` and whose every
other field is its declared empty default, and no other probe is
consulted (the result is the same under any environment with the same
fetch outcome). -/
theorem scan_service_fetch_failure (env : ScanEnv) (url r : String)
    (h : env.fetch = .exn r) :
    scan_service env url = { initReport url with errors := [.str r] } ∧
    ∀ env2 : ScanEnv, env2.fetch = env.fetch →
      scan_service env2 url = scan_service env url := by
  have key : ∀ e : ScanEnv, e.fetch = .exn r →
      scan_service e url = { initReport url with errors := [.str r] } := by
    intro e he
    simp [scan_service, fetch_html_via_tor, he]
  exact ⟨key env h, fun env2 h2 => (key env2 (h2.trans h)).trans (key env h).symm⟩

/-- Witness for C1 at a concrete environment whose fetch fails with
reason `"boom"`. -/
theorem scan_service_fetch_failure_witness :
    scan_service
      { fetch := .exn "boom", get := fun _ => .exn "net down",
        imgGet := fun _ => none, imgDecode := fun _ => .openError,
        cert := .connError "tls down", conn := fun _ => .osError "timed out",
        descQuery := .descs [] } "http://abc.onion" =
      { initReport "http://abc.onion" with errors := [.str "boom"] } :=
  (scan_service_fetch_failure
    { fetch := .exn "boom", get := fun _ => .exn "net down",
      imgGet := fun _ => none, imgDecode := fun _ => .openError,
      cert := .connError "tls down", conn := fun _ => .osError "timed out",
      descQuery := .descs [] } "http://abc.onion" "boom" rfl).1

/-- C9: when the page fetch succeeds but the body is the empty string,
`scan_service` takes the same short-circuit branch as a failed fetch —
no other probe is consulted — and what it appends to the errors list is
the response header map itself, not an error string. -/
theorem scan_service_empty_body (env : ScanEnv) (url : String)
    (hd : List (String × String)) (h : env.fetch = .resp "" hd) :
    scan_service env url = { initReport url with errors := [.hdrs hd] } ∧
    ∀ env2 : ScanEnv, env2.fetch = env.fetch →
      scan_service env2 url = scan_service env url := by
  have key : ∀ e : ScanEnv, e.fetch = .resp "" hd →
      scan_service e url = { initReport url with errors := [.hdrs hd] } := by
    intro e he
    simp [scan_service, fetch_html_via_tor, he]
  exact ⟨key env h, fun env2 h2 => (key env2 (h2.trans h)).trans (key env h).symm⟩

/-- Witness for C9 at a concrete environment whose fetch returns an
empty body with a nonempty header map. -/
theorem scan_service_empty_body_witness :
    scan_service
      { fetch := .resp "" [("Server", "Apache")], get := fun _ => .exn "net down",
        imgGet := fun _ => none, imgDecode := fun _ => .openError,
        cert := .connError "tls down", conn := fun _ => .osError "timed out",
        descQuery := .descs [] } "http://abc.onion" =
      { initReport "http://abc.onion" with
          errors := [.hdrs [("Server", "Apache")]] } :=
  (scan_service_empty_body
    { fetch := .resp "" [("Server", "Apache")], get := fun _ => .exn "net down",
      imgGet := fun _ => none, imgDecode := fun _ => .openError,
      cert := .connError "tls down", conn := fun _ => .osError "timed out",
      descQuery := .descs [] } "http://abc.onion" [("Server", "Apache")] rfl).1

/-- C10: `extract_onion_links` selects by substring — a string is in the
result exactly when it is an href attribute value found in the HTML and
contains `".onion"` anywhere — the result has no duplicates, a URL whose
host is not an onion address (`https://example.onion.attacker.com`) is
included, and duplicate hrefs collapse to one entry. -/
theorem extract_onion_links_spec :
    (∀ html x : String, x ∈ extract_onion_links html ↔
      x ∈ attrValues "href" html ∧ containsSubstr x ".onion" = true) ∧
    (∀ html : String, (extract_onion_links html).Nodup) ∧
    extract_onion_links "<a href=\"https://example.onion.attacker.com\">x</a>"
      = ["https://example.onion.attacker.com"] ∧
    extract_onion_links
      "<a href=\"http://x.onion/\">a</a><a href=\"http://x.onion/\">b</a>"
      = ["http://x.onion/"] := by
  refine ⟨fun html x => ?_, fun html => List.nodup_dedup _, by decide, by decide⟩
  simp [extract_onion_links, List.mem_dedup, List.mem_filter]

/-- Counterexample to C2: the report shape is not identical regardless
of outcome.  Under an environment whose fetch succeeds (hostname
parseable) the report carries the eight `{protocol}_info` keys —
`ssh_info` among them — while under a fetch failure those keys are
absent altogether rather than present with empty defaults. -/
theorem report_shape_not_stable :
    reportKeys (scan_service
      { fetch := .resp "<html></html>" [("Server", "Apache")],
        get := fun _ => .exn "net down", imgGet := fun _ => none,
        imgDecode := fun _ => .openError, cert := .connError "tls down",
        conn := fun _ => .osError "timed out", descQuery := .descs [] }
      "http://abc.onion") ≠
    reportKeys (scan_service
      { fetch := .exn "boom", get := fun _ => .exn "net down",
        imgGet := fun _ => none, imgDecode := fun _ => .openError,
        cert := .connError "tls down", conn := fun _ => .osError "timed out",
        descQuery := .descs [] } "http://abc.onion") ∧
    "ssh_info" ∈ reportKeys (scan_service
      { fetch := .resp "<html></html>" [("Server", "Apache")],
        get := fun _ => .exn "net down", imgGet := fun _ => none,
        imgDecode := fun _ => .openError, cert := .connError "tls down",
        conn := fun _ => .osError "timed out", descQuery := .descs [] }
      "http://abc.onion") ∧
    "ssh_info" ∉ reportKeys (scan_service
      { fetch := .exn "boom", get := fun _ => .exn "net down",
        imgGet := fun _ => none, imgDecode := fun _ => .openError,
        cert := .connError "tls down", conn := fun _ => .osError "timed out",
        descQuery := .descs [] } "http://abc.onion") := by
  decide

/-- C2 amended: the twelve enumerated base fields are always present
(with their empty defaults when a probe is skipped or fails), but the
eight `{protocol}_info` entries are present exactly when the page fetch
returned a truthy body and the target URL has a truthy hostname;
otherwise they are absent, so the report's key set does depend on the
outcome. -/
theorem scan_service_report_keys (env : ScanEnv) (url : String) :
    reportKeys (scan_service env url) =
      baseKeys ++
        (if fetchOk env.fetch = true ∧ hostnameOf (urlparse url) ≠ "" then
          protocol_ports.map (fun lp => lp.1 ++ "_info") else []) := by
  cases hf : env.fetch with
  | exn m =>
    simp [scan_service, fetch_html_via_tor, hf, reportKeys, fetchOk, initReport]
  | resp t hd =>
    by_cases ht : t = ""
    · subst ht
      simp [scan_service, fetch_html_via_tor, hf, reportKeys, fetchOk, initReport]
    · by_cases hh : hostnameOf (urlparse url) = ""
      · simp [scan_service, fetch_html_via_tor, hf, ht, hh, reportKeys, fetchOk,
          initReport]
      · simp [scan_service, fetch_html_via_tor, hf, ht, hh, reportKeys, fetchOk,
          scan_protocols, List.map_map, Function.comp, initReport]

end OnionScan
